import Mathlib

/-
Verification of highdicom/sr/coding.py (class CodedConcept).

The embedding models a pydicom Dataset restricted to the six attributes
this module ever touches, each an optional string (absence of the
attribute on the Python object is modelled as none), together with a
flag recording whether the object's perceived class is CodedConcept
(the subclass) or a plain Dataset. Construction returning an exception
is modelled with Except. The external pydicom Code collaborator is not
part of this repository's sources and is modelled from the spec.
-/

set_option autoImplicit false

namespace HighdicomSR

/-- Checks whether the first character list begins with the second one;
models Python str.startswith on code points. -/
def leadingMatch : List Char → List Char → Bool
  | _, [] => true
  | [], _ :: _ => false
  | c :: cs, p :: ps => c == p && leadingMatch cs ps

/-- Checks whether the second character list occurs contiguously inside the
first one; models the Python in operator on strings. -/
def subMatch : List Char → List Char → Bool
  | [], pat => pat.isEmpty
  | c :: cs, pat => leadingMatch (c :: cs) pat || subMatch cs pat

/-- Models Python str.startswith. -/
def strStartsWith (s pat : String) : Bool :=
  leadingMatch s.toList pat.toList

/-- Models the Python expression pat in s (substring containment). -/
def strContainsSub (s pat : String) : Bool :=
  subMatch s.toList pat.toList

/-- A pydicom Dataset restricted to the attributes used by CodedConcept.
Each field is the attribute's value, or none when the attribute is not set
on the object (hasattr is false). `isCodedConcept` records whether the
object's class is the CodedConcept subclass rather than plain Dataset,
so that the class retag performed by from_dataset is observable. -/
structure Dataset where
  CodeValue : Option String
  LongCodeValue : Option String
  URNCodeValue : Option String
  CodeMeaning : Option String
  CodingSchemeDesignator : Option String
  CodingSchemeVersion : Option String
  isCodedConcept : Bool
  deriving DecidableEq

/-- Modelled from the spec: the external lightweight pydicom Code value,
an ordered 4-tuple (value, scheme_designator, meaning, scheme_version).
It is an external collaborator, not part of this repository's sources. -/
structure Code where
  value : String
  scheme_designator : String
  meaning : String
  scheme_version : Option String
  deriving DecidableEq

/-- Modelled from the spec: equality of the external Code type considers two
codes equal iff their value and scheme_designator match; meaning and
scheme_version are excluded from the comparison. -/
def Code.eq (a b : Code) : Bool :=
  a.value == b.value && a.scheme_designator == b.scheme_designator

/-- Exceptions raised by the functions of coding.py. -/
inductive PyError where
  | valueError
  | typeError
  | attributeError
  deriving DecidableEq

/-- An argument that is either a pydicom Dataset or some other object,
as discriminated by isinstance(dataset, Dataset) in from_dataset. -/
inductive PyInput where
  | dataset (d : Dataset)
  | notDataset
  deriving DecidableEq

/-- An argument that is either a lightweight Code or a CodedConcept
instance, as discriminated by isinstance(code, cls) in from_code. -/
inductive CodeOrConcept where
  | code (c : Code)
  | concept (d : Dataset)
  deriving DecidableEq

namespace CodedConcept

/-- Embedding of CodedConcept.__init__: selects the code-identifier
variant from the length and shape of `value`, rejects a meaning longer
than 64 characters, and stores CodingSchemeVersion only when
scheme_version is not None. The constructed object has class
CodedConcept. -/
def init (value scheme_designator meaning : String)
    (scheme_version : Option String) : Except PyError Dataset :=
  let d : Dataset :=
    { CodeValue := none, LongCodeValue := none, URNCodeValue := none,
      CodeMeaning := none, CodingSchemeDesignator := none,
      CodingSchemeVersion := none, isCodedConcept := true }
  let d :=
    if value.length > 16 then
      if strStartsWith value "urn" || strContainsSub value "://" then
        { d with URNCodeValue := some value }
      else
        { d with LongCodeValue := some value }
    else
      { d with CodeValue := some value }
  if meaning.length > 64 then
    Except.error PyError.valueError
  else
    let d := { d with CodeMeaning := some meaning,
                      CodingSchemeDesignator := some scheme_designator }
    let d :=
      match scheme_version with
      | some s => { d with CodingSchemeVersion := some s }
      | none => d
    Except.ok d

/-- Embedding of the value property: nested getattr with default, reading
CodeValue, then LongCodeValue, then URNCodeValue, defaulting to None. -/
def value (d : Dataset) : Option String :=
  match d.CodeValue with
  | some v => some v
  | none =>
    match d.LongCodeValue with
    | some v => some v
    | none => d.URNCodeValue

/-- Embedding of the meaning property (attribute read; none models the
AttributeError raised when the attribute is missing). -/
def meaning (d : Dataset) : Option String :=
  d.CodeMeaning

/-- Embedding of the scheme_designator property (attribute read; none
models the AttributeError raised when the attribute is missing). -/
def scheme_designator (d : Dataset) : Option String :=
  d.CodingSchemeDesignator

/-- Embedding of the scheme_version property: getattr with default None. -/
def scheme_version (d : Dataset) : Option String :=
  d.CodingSchemeVersion

/-- Canonical reduction of a CodedConcept to the external Code 4-tuple,
as built by __eq__: Code(self.value, self.scheme_designator, self.meaning,
self.scheme_version). Returns none when a required attribute is absent. -/
def toCode (d : Dataset) : Option Code := do
  let v ← value d
  let sd ← scheme_designator d
  let m ← meaning d
  pure { value := v, scheme_designator := sd, meaning := m,
         scheme_version := scheme_version d }

/-- Embedding of the typed branch of CodedConcept.__eq__: both sides are
reduced to the canonical Code 4-tuple and compared with the external
Code equality rule. The branch for arguments that are neither Code nor
CodedConcept (generic container equality) is outside this model. -/
def eq (a : Dataset) (other : CodeOrConcept) : Option Bool := do
  let this ← toCode a
  let that ←
    match other with
    | CodeOrConcept.code c => some c
    | CodeOrConcept.concept d => toCode d
  pure (Code.eq this that)

/-- Embedding of __hash__ up to the opaque string hash: the string that is
handed to hash, namely scheme_designator + value. -/
def hashInput (d : Dataset) : Option String := do
  let sd ← scheme_designator d
  let v ← value d
  pure (sd ++ v)

/-- Embedding of __hash__, parameterized by the platform string-hash
function. -/
def hashVal (hashStr : String → Int) (d : Dataset) : Option Int :=
  (hashInput d).map hashStr

/-- Number of the three code-identifier attributes present on the dataset,
as computed by from_dataset. -/
def numCodeValues (d : Dataset) : Nat :=
  (if d.CodeValue.isSome then 1 else 0) +
  (if d.LongCodeValue.isSome then 1 else 0) +
  (if d.URNCodeValue.isSome then 1 else 0)

/-- Embedding of CodedConcept.from_dataset. The result pairs the returned
concept with the state of the caller's original object after the call:
with copy=True the original is deep-copied and left untouched, with
copy=False the original object itself is retagged to class CodedConcept
and returned, so the two handles alias. -/
def from_dataset (input : PyInput) (copy : Bool) :
    Except PyError (Dataset × PyInput) :=
  match input with
  | PyInput.notDataset => Except.error PyError.typeError
  | PyInput.dataset d =>
    if numCodeValues d ≠ 1 then
      Except.error PyError.attributeError
    else if d.CodeMeaning.isNone then
      Except.error PyError.attributeError
    else if d.CodingSchemeDesignator.isNone then
      Except.error PyError.attributeError
    else
      let concept := { d with isCodedConcept := true }
      if copy then
        Except.ok (concept, PyInput.dataset d)
      else
        Except.ok (concept, PyInput.dataset concept)

/-- Embedding of CodedConcept.from_code: a CodedConcept instance is
returned unchanged; a lightweight Code is unpacked into the four
positional constructor arguments. -/
def from_code (code : CodeOrConcept) : Except PyError Dataset :=
  match code with
  | CodeOrConcept.concept d => Except.ok d
  | CodeOrConcept.code c =>
      init c.value c.scheme_designator c.meaning c.scheme_version

/-- The dataset produced by a successful direct construction, spelled out
field by field. -/
def initDataset (v sd m : String) (ver : Option String) : Dataset where
  CodeValue := if v.length > 16 then none else some v
  LongCodeValue :=
    if v.length > 16 then
      if strStartsWith v "urn" || strContainsSub v "://" then none
      else some v
    else none
  URNCodeValue :=
    if v.length > 16 then
      if strStartsWith v "urn" || strContainsSub v "://" then some v
      else none
    else none
  CodeMeaning := some m
  CodingSchemeDesignator := some sd
  CodingSchemeVersion := ver
  isCodedConcept := true

/-- A meaning string of 65 characters. -/
def meaning65 : String :=
  String.mk (List.replicate 65 'a')

/-- A meaning string of 64 characters. -/
def meaning64 : String :=
  String.mk (List.replicate 64 'a')

/-- A well-formed plain dataset holding one coded concept. -/
def validDs : Dataset :=
  { CodeValue := some "DCM-TEST", LongCodeValue := none, URNCodeValue := none,
    CodeMeaning := some "Test", CodingSchemeDesignator := some "DCM",
    CodingSchemeVersion := none, isCodedConcept := false }

/-- validDs with the CodeMeaning attribute removed. -/
def noMeaningDs : Dataset :=
  { validDs with CodeMeaning := none }

/-- validDs with a second code-identifier attribute also populated. -/
def twoValuesDs : Dataset :=
  { validDs with LongCodeValue := some "x" }

/-- A directly constructed sample concept. -/
def sampleConcept : Dataset :=
  initDataset "123" "SCT" "Pain" none

/-- Closed form of init: it fails exactly on a meaning longer than 64
characters, and otherwise produces initDataset. -/
theorem init_eq (v sd m : String) (ver : Option String) :
    init v sd m ver =
      if m.length > 64 then Except.error PyError.valueError
      else Except.ok (initDataset v sd m ver) := by
  unfold init initDataset
  by_cases h1 : v.length > 16 <;>
    by_cases h2 : (strStartsWith v "urn" || strContainsSub v "://") = true <;>
      by_cases h3 : m.length > 64 <;> cases ver <;>
        simp [h1, h2, h3]

/-- Successful construction characterized. -/
theorem init_ok_iff (v sd m : String) (ver : Option String) (c : Dataset) :
    init v sd m ver = Except.ok c ↔
      m.length ≤ 64 ∧ c = initDataset v sd m ver := by
  rw [init_eq]
  by_cases h : m.length > 64
  · simp [h]
  · simp [h, eq_comm, Nat.le_of_not_lt h]

/-- The value accessor on a directly constructed concept returns the
original value string. -/
theorem value_initDataset (v sd m : String) (ver : Option String) :
    value (initDataset v sd m ver) = some v := by
  unfold value initDataset
  by_cases h1 : v.length > 16 <;>
    by_cases h2 : (strStartsWith v "urn" || strContainsSub v "://") = true <;>
      simp [h1, h2]

/-- The canonical tuple of a directly constructed concept. -/
theorem toCode_initDataset (v sd m : String) (ver : Option String) :
    toCode (initDataset v sd m ver) =
      some { value := v, scheme_designator := sd, meaning := m,
             scheme_version := ver } := by
  unfold toCode
  rw [value_initDataset]
  simp [scheme_designator, meaning, scheme_version, initDataset]

/-- Unpacking a successful canonical-tuple reduction. -/
theorem toCode_elim (d : Dataset) (c : Code) (h : toCode d = some c) :
    value d = some c.value ∧
      scheme_designator d = some c.scheme_designator ∧
      meaning d = some c.meaning ∧
      scheme_version d = c.scheme_version := by
  unfold toCode at h
  cases hv : value d <;> rw [hv] at h <;> simp at h
  cases hs : scheme_designator d <;> rw [hs] at h <;> simp at h
  cases hm : meaning d <;> rw [hm] at h <;> simp at h
  subst h
  simp

/-- Claim C2: construction selects the code-identifier variant
deterministically from the value string: length at most 16 gives the
short form; length above 16 with a leading "urn" or a "://" substring
gives the URN form; length above 16 otherwise gives the long form; and
in every case the value accessor afterwards returns the original
string. -/
theorem variant_selection_spec (v sd m : String) (ver : Option String)
    (hm : m.length ≤ 64) :
    ∃ c, init v sd m ver = Except.ok c ∧ value c = some v ∧
      (v.length ≤ 16 →
        c.CodeValue = some v ∧ c.LongCodeValue = none ∧
          c.URNCodeValue = none) ∧
      (v.length > 16 →
        (strStartsWith v "urn" || strContainsSub v "://") = true →
          c.URNCodeValue = some v ∧ c.CodeValue = none ∧
            c.LongCodeValue = none) ∧
      (v.length > 16 →
        (strStartsWith v "urn" || strContainsSub v "://") = false →
          c.LongCodeValue = some v ∧ c.CodeValue = none ∧
            c.URNCodeValue = none) := by
  refine ⟨initDataset v sd m ver, (init_ok_iff v sd m ver _).mpr ⟨hm, rfl⟩,
    value_initDataset v sd m ver, ?_, ?_, ?_⟩
  · intro h1
    simp [initDataset, Nat.not_lt.mpr h1]
  · intro h1 h2
    simp [initDataset, h1, h2]
  · intro h1 h2
    simp [initDataset, h1, h2]

/-- Witness for variant_selection_spec at a concrete short value. -/
theorem variant_selection_spec_witness :
    ("Pain" : String).length ≤ 64 ∧
      ∃ c, init "123" "SCT" "Pain" none = Except.ok c ∧
        value c = some "123" := by
  refine ⟨by decide, ?_⟩
  obtain ⟨c, h1, h2, -, -, -⟩ :=
    variant_selection_spec "123" "SCT" "Pain" none (by decide)
  exact ⟨c, h1, h2⟩

/-- Claim C3: direct construction fails with a validation error exactly
when the meaning string is longer than 64 characters; this is the only
error direct construction raises, and any shorter meaning succeeds. -/
theorem meaning_length_gate (v sd m : String) (ver : Option String) :
    (init v sd m ver = Except.error PyError.valueError ↔ m.length > 64) ∧
    (∀ e, init v sd m ver = Except.error e → e = PyError.valueError) ∧
    (m.length ≤ 64 → ∃ c, init v sd m ver = Except.ok c) := by
  rw [init_eq]
  by_cases h : m.length > 64
  · simp [h]
  · simp [h]

/-- Witness for meaning_length_gate at meanings of length 65 and 64. -/
theorem meaning_length_gate_witness :
    meaning65.length > 64 ∧
      init "v" "d" meaning65 none = Except.error PyError.valueError ∧
      meaning64.length ≤ 64 ∧
      (∃ c, init "v" "d" meaning64 none = Except.ok c) :=
  ⟨by decide, (meaning_length_gate "v" "d" meaning65 none).1.mpr (by decide),
    by decide, (meaning_length_gate "v" "d" meaning64 none).2.2 (by decide)⟩

/-- Claim C9 fails as stated: supplying the empty string as
scheme_version, a non-absent but empty value, does store the
CodingSchemeVersion attribute, because the code only tests the argument
against None. -/
theorem scheme_version_empty_is_stored :
    ∃ c, init "1" "DCM" "m" (some "") = Except.ok c ∧
      c.CodingSchemeVersion = some "" ∧ scheme_version c = some "" :=
  ⟨initDataset "1" "DCM" "m" (some ""), rfl, rfl, rfl⟩

/-- Claim C9 amended: the version attribute is stored exactly when a
non-absent value is supplied, the empty string included; when it is
omitted the attribute is entirely unset and the accessor returns the
absent marker. -/
theorem scheme_version_stored_iff_supplied (v sd m : String)
    (ver : Option String) (c : Dataset)
    (h : init v sd m ver = Except.ok c) :
    c.CodingSchemeVersion = ver ∧ scheme_version c = ver := by
  obtain ⟨-, rfl⟩ := (init_ok_iff v sd m ver c).mp h
  exact ⟨rfl, rfl⟩

/-- Witness for scheme_version_stored_iff_supplied with the version
omitted. -/
theorem scheme_version_stored_iff_supplied_witness :
    (initDataset "1" "DCM" "m" none).CodingSchemeVersion = none ∧
      scheme_version (initDataset "1" "DCM" "m" none) = none :=
  scheme_version_stored_iff_supplied "1" "DCM" "m" none
    (initDataset "1" "DCM" "m" none) rfl

/-- Claim C1: for any two constructed CodedConcepts, the typed equality
returns true exactly when the code value and the scheme designator both
match; the meanings and the scheme versions, arbitrary on both sides,
never influence the result, and the same holds when the right-hand side
is a lightweight Code carrying the same four fields. -/
theorem typed_equality_iff (v1 d1 m1 : String) (ver1 : Option String)
    (v2 d2 m2 : String) (ver2 : Option String) (a b : Dataset)
    (ha : init v1 d1 m1 ver1 = Except.ok a)
    (hb : init v2 d2 m2 ver2 = Except.ok b) :
    (eq a (CodeOrConcept.concept b) = some true ↔ v1 = v2 ∧ d1 = d2) ∧
    (eq a (CodeOrConcept.code
        { value := v2, scheme_designator := d2, meaning := m2,
          scheme_version := ver2 }) = some true ↔ v1 = v2 ∧ d1 = d2) := by
  obtain ⟨-, rfl⟩ := (init_ok_iff v1 d1 m1 ver1 a).mp ha
  obtain ⟨-, rfl⟩ := (init_ok_iff v2 d2 m2 ver2 b).mp hb
  constructor <;>
    simp [eq, toCode_initDataset, Code.eq]

/-- Witness for typed_equality_iff: same value and designator with
different meanings and versions compare equal, against both a concept
and a lightweight Code. -/
theorem typed_equality_iff_witness :
    eq (initDataset "123" "SCT" "Pain" none)
      (CodeOrConcept.concept
        (initDataset "123" "SCT" "Different meaning" (some "v2")))
      = some true ∧
    eq (initDataset "123" "SCT" "Pain" none)
      (CodeOrConcept.code (Code.mk "123" "SCT" "Other" none))
      = some true := by
  have h1 := typed_equality_iff "123" "SCT" "Pain" none "123" "SCT"
    "Different meaning" (some "v2") (initDataset "123" "SCT" "Pain" none)
    (initDataset "123" "SCT" "Different meaning" (some "v2")) rfl rfl
  have h2 := typed_equality_iff "123" "SCT" "Pain" none "123" "SCT"
    "Other" none (initDataset "123" "SCT" "Pain" none)
    (initDataset "123" "SCT" "Other" none) rfl rfl
  exact ⟨h1.1.mpr ⟨rfl, rfl⟩, h2.2.mpr ⟨rfl, rfl⟩⟩

/-- Claim C6: the hash input of a concept is the concatenation of its
scheme designator and its value, so for any platform string-hash
function the hash is that of the concatenated string; consequently two
concepts equal under the typed comparison always hash identically. -/
theorem hash_concat_and_eq_consistent (hs : String → Int) (a b : Dataset)
    (sd v : String) (h1 : scheme_designator a = some sd)
    (h2 : value a = some v) :
    hashVal hs a = some (hs (sd ++ v)) ∧
      (eq a (CodeOrConcept.concept b) = some true →
        hashVal hs a = hashVal hs b) := by
  constructor
  · simp [hashVal, hashInput, h1, h2]
  · intro he
    unfold eq at he
    cases hca : toCode a <;> rw [hca] at he <;> simp at he
    cases hcb : toCode b <;> rw [hcb] at he <;> simp at he
    obtain ⟨hva, hsa, -, -⟩ := toCode_elim a _ hca
    obtain ⟨hvb, hsb, -, -⟩ := toCode_elim b _ hcb
    unfold Code.eq at he
    simp only [Bool.and_eq_true, beq_iff_eq] at he
    simp [hashVal, hashInput, hva, hsa, hvb, hsb, he.1, he.2]

/-- Witness for hash_concat_and_eq_consistent at a concrete concept and
the string-length stand-in for the platform hash. -/
theorem hash_concat_and_eq_consistent_witness :
    hashVal (fun s => (s.length : Int)) sampleConcept = some 6 := by
  have h := (hash_concat_and_eq_consistent (fun s => (s.length : Int))
    sampleConcept sampleConcept "SCT" "123" rfl rfl).1
  rw [h]
  decide

/-- Claim C5: from_dataset raises TypeError exactly when the input is
not a pydicom Dataset; on a Dataset it raises AttributeError exactly
when the number of populated code-identifier attributes differs from
one, or the meaning attribute or the scheme-designator attribute is
missing; on any other dataset it succeeds. -/
theorem from_dataset_error_characterization (input : PyInput)
    (copy : Bool) :
    (from_dataset input copy = Except.error PyError.typeError ↔
      input = PyInput.notDataset) ∧
    (∀ d, input = PyInput.dataset d →
      (from_dataset input copy = Except.error PyError.attributeError ↔
        (numCodeValues d ≠ 1 ∨ d.CodeMeaning = none ∨
          d.CodingSchemeDesignator = none))) ∧
    (∀ d, input = PyInput.dataset d → numCodeValues d = 1 →
      d.CodeMeaning ≠ none → d.CodingSchemeDesignator ≠ none →
      ∃ c orig, from_dataset input copy = Except.ok (c, orig)) := by
  cases input with
  | notDataset => simp [from_dataset]
  | dataset d =>
    by_cases h1 : numCodeValues d = 1 <;>
      by_cases h2 : d.CodeMeaning = none <;>
        by_cases h3 : d.CodingSchemeDesignator = none <;>
          cases copy <;>
            simp [from_dataset, h1, h2, h3, Option.isNone_iff_eq_none]

/-- Witness for from_dataset_error_characterization: a non-dataset input,
a dataset missing its meaning, a dataset with two code-identifier
attributes, and a valid dataset. -/
theorem from_dataset_error_characterization_witness :
    from_dataset PyInput.notDataset true = Except.error PyError.typeError ∧
      from_dataset (PyInput.dataset noMeaningDs) true =
        Except.error PyError.attributeError ∧
      from_dataset (PyInput.dataset twoValuesDs) true =
        Except.error PyError.attributeError ∧
      (∃ c orig, from_dataset (PyInput.dataset validDs) true =
        Except.ok (c, orig)) :=
  ⟨(from_dataset_error_characterization PyInput.notDataset true).1.mpr rfl,
    ((from_dataset_error_characterization (PyInput.dataset noMeaningDs)
        true).2.1 noMeaningDs rfl).mpr (Or.inr (Or.inl rfl)),
    ((from_dataset_error_characterization (PyInput.dataset twoValuesDs)
        true).2.1 twoValuesDs rfl).mpr (Or.inl (by decide)),
    (from_dataset_error_characterization (PyInput.dataset validDs)
        true).2.2 validDs rfl (by decide) (by decide) (by decide)⟩

/-- Claim C7: on a structurally valid dataset, from_dataset with
copy=True succeeds, the returned concept's accessors report the
attributes stored in that dataset, the returned object has class
CodedConcept, and the caller's original dataset, its perceived class
included, is unchanged after the call. -/
theorem from_dataset_copy_roundtrip (d : Dataset) (m sd : String)
    (h1 : numCodeValues d = 1) (h2 : d.CodeMeaning = some m)
    (h3 : d.CodingSchemeDesignator = some sd) :
    ∃ c, from_dataset (PyInput.dataset d) true =
        Except.ok (c, PyInput.dataset d) ∧
      value c = value d ∧ meaning c = some m ∧
      scheme_designator c = some sd ∧ c.isCodedConcept = true := by
  refine ⟨{ d with isCodedConcept := true }, ?_, rfl, ?_, ?_, rfl⟩
  · simp [from_dataset, h1, h2, h3]
  · simpa [meaning] using h2
  · simpa [scheme_designator] using h3

/-- Witness for from_dataset_copy_roundtrip at the concrete valid
dataset of spec property 7. -/
theorem from_dataset_copy_roundtrip_witness :
    ∃ c, from_dataset (PyInput.dataset validDs) true =
        Except.ok (c, PyInput.dataset validDs) ∧
      value c = some "DCM-TEST" ∧ meaning c = some "Test" ∧
      scheme_designator c = some "DCM" ∧ c.isCodedConcept = true := by
  obtain ⟨c, ha, hb, hc, hd, he⟩ :=
    from_dataset_copy_roundtrip validDs "Test" "DCM" (by decide) rfl rfl
  exact ⟨c, ha, hb.trans rfl, hc, hd, he⟩

/-- Claim C10: from_dataset validates only attribute presence, never
content: a dataset whose CodeValue attribute holds an arbitrary string,
of any length, or whose LongCodeValue attribute holds an arbitrary
string, short or URN-shaped included, is adopted with that attribute
unchanged, so the adopted concept need not satisfy the variant
selection that direct construction establishes. -/
theorem from_dataset_ignores_content (s m sd : String) :
    (∃ c orig,
        from_dataset (PyInput.dataset
          { CodeValue := some s, LongCodeValue := none,
            URNCodeValue := none, CodeMeaning := some m,
            CodingSchemeDesignator := some sd,
            CodingSchemeVersion := none, isCodedConcept := false }) true =
          Except.ok (c, orig) ∧ c.CodeValue = some s ∧
            value c = some s) ∧
    (∃ c orig,
        from_dataset (PyInput.dataset
          { CodeValue := none, LongCodeValue := some s,
            URNCodeValue := none, CodeMeaning := some m,
            CodingSchemeDesignator := some sd,
            CodingSchemeVersion := none, isCodedConcept := false }) true =
          Except.ok (c, orig) ∧ c.LongCodeValue = some s ∧
            value c = some s) :=
  ⟨⟨_, _, rfl, rfl, rfl⟩, ⟨_, _, rfl, rfl, rfl⟩⟩

/-- Claim C4 is refuted: from_dataset performs no meaning-length
validation, so a dataset whose CodeMeaning holds 65 characters is
adopted and yields a CodedConcept whose meaning exceeds 64
characters. -/
theorem from_dataset_admits_long_meaning :
    ∃ c orig,
      from_dataset (PyInput.dataset
        { CodeValue := some "1", LongCodeValue := none,
          URNCodeValue := none, CodeMeaning := some meaning65,
          CodingSchemeDesignator := some "DCM",
          CodingSchemeVersion := none, isCodedConcept := false }) true =
        Except.ok (c, orig) ∧
      meaning c = some meaning65 ∧ meaning65.length > 64 :=
  ⟨_, _, rfl, rfl, by decide⟩

/-- Claim C4 amended: concepts produced by direct construction or by
from_code applied to a lightweight Code always carry a meaning of at
most 64 characters; from_dataset enforces no such bound. -/
theorem construction_meaning_bounded (v sd m : String)
    (ver : Option String) (cd : Code) (c c2 : Dataset)
    (h : init v sd m ver = Except.ok c)
    (h2 : from_code (CodeOrConcept.code cd) = Except.ok c2) :
    (∃ mm, meaning c = some mm ∧ mm.length ≤ 64) ∧
    (∃ mm, meaning c2 = some mm ∧ mm.length ≤ 64) := by
  obtain ⟨hm, rfl⟩ := (init_ok_iff v sd m ver c).mp h
  unfold from_code at h2
  obtain ⟨hm2, rfl⟩ :=
    (init_ok_iff cd.value cd.scheme_designator cd.meaning
      cd.scheme_version c2).mp h2
  exact ⟨⟨m, rfl, hm⟩, ⟨cd.meaning, rfl, hm2⟩⟩

/-- Witness for construction_meaning_bounded at concrete inputs. -/
theorem construction_meaning_bounded_witness :
    (∃ mm, meaning (initDataset "123" "SCT" "Pain" none) = some mm ∧
      mm.length ≤ 64) ∧
    (∃ mm, meaning (initDataset "1" "d" "m" none) = some mm ∧
      mm.length ≤ 64) :=
  construction_meaning_bounded "123" "SCT" "Pain" none
    (Code.mk "1" "d" "m" none) (initDataset "123" "SCT" "Pain" none)
    (initDataset "1" "d" "m" none) rfl rfl

/-- Claim C8: from_code returns a CodedConcept argument itself,
unchanged; a lightweight Code argument is unpacked into the four
positional constructor arguments and goes through the full direct
construction, its meaning-length check included. -/
theorem from_code_spec :
    (∀ d : Dataset, from_code (CodeOrConcept.concept d) = Except.ok d) ∧
    (∀ c : Code, from_code (CodeOrConcept.code c) =
        init c.value c.scheme_designator c.meaning c.scheme_version) ∧
    (∀ c : Code, c.meaning.length > 64 →
        from_code (CodeOrConcept.code c) =
          Except.error PyError.valueError) ∧
    (∀ c : Code, c.meaning.length ≤ 64 →
        from_code (CodeOrConcept.code c) =
          Except.ok (initDataset c.value c.scheme_designator c.meaning
            c.scheme_version)) := by
  refine ⟨fun d => rfl, fun c => rfl, fun c h => ?_, fun c h => ?_⟩
  · show init c.value c.scheme_designator c.meaning c.scheme_version =
      Except.error PyError.valueError
    rw [init_eq]
    simp [h]
  · show init c.value c.scheme_designator c.meaning c.scheme_version =
      Except.ok (initDataset c.value c.scheme_designator c.meaning
        c.scheme_version)
    rw [init_eq]
    simp [Nat.not_lt.mpr h]

/-- Witness for from_code_spec: passthrough of an existing concept and
rejection of an overlong Code meaning. -/
theorem from_code_spec_witness :
    from_code (CodeOrConcept.concept sampleConcept) =
        Except.ok sampleConcept ∧
      from_code (CodeOrConcept.code (Code.mk "1" "d" meaning65 none)) =
        Except.error PyError.valueError :=
  ⟨from_code_spec.1 sampleConcept,
    from_code_spec.2.2.1 (Code.mk "1" "d" meaning65 none) (by decide)⟩

end CodedConcept

end HighdicomSR
